import Mathlib

/-!
# MiVilla visitor access-credential lifecycle — shallow embedding

Embedding of the core of the MiVilla condominium access app:

* the QR credential payload and its issuance (`handleGenerate`,
  src/unnamed/part_003, `QRGenerator`),
* the offline validator (`validateQR`, src/unnamed/part_003, `QRValidator`),
* the scan-session start transition (`startScan`, src/unnamed/part_003),
* the periodic expiration sweep (`checkExpiration`, src/App.tsx).

Times are epoch-milliseconds modelled as `Int`.  Host collaborators (the JS
`Date` parser, `JSON.parse`/`JSON.stringify`, `crypto.randomUUID`) are
modelled observationally, as explained at each definition.
-/

namespace MiVilla

/-- Observational model of a JS string holding a date, as the source uses such
strings: only through JS truthiness and the host `new Date(s)` parse.
`text s` is a string the host parser rejects (`Invalid Date`, `NaN` time
value); the empty string `text ""` is additionally JS-falsy.  `stamp t` is a
well-formed date string denoting epoch-millis `t` (e.g. the output of
`Date.prototype.toISOString`, which re-parses to the same instant). -/
inductive DateStr where
  | text (s : String)
  | stamp (t : Int)
  deriving DecidableEq, Repr

/-- JS truthiness of the string underlying a `DateStr`: only `""` is falsy. -/
def DateStr.truthy : DateStr → Bool
  | .text s => s != ""
  | .stamp _ => true

/-- The host `new Date(s).getTime()`: `none` is the `NaN` time value of an
`Invalid Date`. -/
def jsDate : DateStr → Option Int
  | .text _ => none
  | .stamp t => some t

/-- `new Date(d) < new Date(now)` on the host: comparisons against `NaN` are
false. -/
def dateLtNow (d : DateStr) (now : Int) : Bool :=
  match jsDate d with
  | none => false
  | some t => t < now

/-- `new Date(d) <= new Date(now)` on the host: comparisons against `NaN` are
false. -/
def dateLeNow (d : DateStr) (now : Int) : Bool :=
  match jsDate d with
  | none => false
  | some t => t ≤ now

/-- `Role` from src/types.ts: `'X' | 'A' | 'B'`. -/
inductive Role where
  | X
  | A
  | B
  deriving DecidableEq, Repr

/-- The role letter as it is written into a credential payload. -/
def Role.str : Role → String
  | .X => "X"
  | .A => "A"
  | .B => "B"

/-- `User` from src/types.ts. -/
structure User where
  id : String
  name : String
  email : String
  role : Role
  tenantId : String
  avatar : String
  unit : Option String := none
  deriving DecidableEq, Repr

/-- `Resident['type']` from src/types.ts. -/
inductive ResidentType where
  | Resident
  | Family
  | Visitor
  | Delivery
  deriving DecidableEq, Repr

/-- `Resident['status']` from src/types.ts. -/
inductive ResidentStatus where
  | Active
  | Inactive
  deriving DecidableEq, Repr

/-- `Resident` from src/types.ts (the access-grant record).  `expirationDate`
is an optional date string (`none` models an absent key / `undefined`). -/
structure Resident where
  id : String
  tenantId : String
  name : String
  unit : String
  type : ResidentType
  status : ResidentStatus
  licensePlate : Option String := none
  expirationDate : Option DateStr := none
  deriving DecidableEq, Repr

/-- `QRPayload.createdBy` from src/unnamed/part_003. -/
structure CreatedBy where
  name : String
  role : String
  id : String
  deriving DecidableEq, Repr

/-- `QRPayload` from src/unnamed/part_003: the credential as built by
`handleGenerate`, every field present. -/
structure QRPayload where
  id : String
  tenantId : String
  residentName : String
  residentUnit : String
  visitorName : String
  createdBy : CreatedBy
  expiresAt : DateStr
  generatedAt : Int
  deriving DecidableEq, Repr

/-- A parsed `createdBy` object with possibly-missing keys (`none` models JS
`undefined`). -/
structure ParsedCreatedBy where
  name : Option String := none
  role : Option String := none
  id : Option String := none
  deriving DecidableEq, Repr

/-- The result of `JSON.parse` on a scanned string, projected onto the keys the
`QRPayload` interface reads.  A missing key — or a parsed non-object value,
whose property reads all yield `undefined` — reads as `none`. -/
structure ParsedPayload where
  id : Option String := none
  tenantId : Option String := none
  residentName : Option String := none
  residentUnit : Option String := none
  visitorName : Option String := none
  createdBy : Option ParsedCreatedBy := none
  expiresAt : Option DateStr := none
  generatedAt : Option Int := none
  deriving DecidableEq, Repr

/-- A raw scanned string as `validateQR` observes it: either a string
`JSON.parse` throws on (`garbage`), or one that parses, projected onto the
payload fields (`obj`). -/
inductive Raw where
  | garbage (s : String)
  | obj (p : ParsedPayload)
  deriving DecidableEq, Repr

/-- JS truthiness of a possibly-missing string field: `undefined` and `""` are
falsy. -/
def truthyStr : Option String → Bool
  | none => false
  | some s => s != ""

/-- JS truthiness of a possibly-missing date-string field. -/
def truthyDate : Option DateStr → Bool
  | none => false
  | some d => d.truthy

/-- The embedding of a fully-built payload into the parsed-payload shape: this
is what `JSON.parse (JSON.stringify payload)` yields, since the payload is a
plain acyclic object of strings and numbers. -/
def toParsed (c : QRPayload) : ParsedPayload :=
  { id := some c.id
    tenantId := some c.tenantId
    residentName := some c.residentName
    residentUnit := some c.residentUnit
    visitorName := some c.visitorName
    createdBy := some { name := some c.createdBy.name
                        role := some c.createdBy.role
                        id := some c.createdBy.id }
    expiresAt := some c.expiresAt
    generatedAt := some c.generatedAt }

/-- `JSON.stringify payload` (src/unnamed/part_003, line 71), viewed through
the `Raw` abstraction: the transport string parses back to exactly the
serialized object. -/
def encode (c : QRPayload) : Raw := .obj (toParsed c)

/-- Structural validity of an issued credential: the three fields the
validator's structure check reads are JS-truthy. -/
def QRPayload.valid (c : QRPayload) : Bool :=
  (c.tenantId != "") && c.expiresAt.truthy && (c.visitorName != "")

/-- The outcome `validateQR` reports through `scanStatus`/`scannedData`/
`errorMsg`: acceptance with the payload, or one of the three typed
rejections. -/
inductive ValidationOutcome where
  | accepted (p : ParsedPayload)
  | rejectedMalformed
  | rejectedTenantMismatch (foundTenant : String)
  | rejectedExpired (expiresAt : DateStr)
  deriving DecidableEq, Repr

/-- `validateQR` from src/unnamed/part_003, lines 301-332.  Step 1 is
`JSON.parse` plus the structure check `!tenantId || !expiresAt || !visitorName`
(a throw caught by the surrounding `try`, reported as a malformed payload);
step 2 compares the payload tenant with the validator's tenant; step 3 is
`new Date(expiresAt) < new Date()`; otherwise the payload is accepted. -/
def validateQR (rawData : Raw) (userTenantId : String) (now : Int) :
    ValidationOutcome :=
  match rawData with
  | .garbage _ => .rejectedMalformed
  | .obj payload =>
    if !truthyStr payload.tenantId || !truthyDate payload.expiresAt
        || !truthyStr payload.visitorName then
      .rejectedMalformed
    else if payload.tenantId.getD "" != userTenantId then
      .rejectedTenantMismatch (payload.tenantId.getD "")
    else if dateLtNow ((payload.expiresAt).getD (.text "")) now then
      .rejectedExpired ((payload.expiresAt).getD (.text ""))
    else
      .accepted payload

/-- The decode half of `validateQR` (its step 1): `JSON.parse` plus the
structural truthiness check on `tenantId`, `expiresAt`, `visitorName`.
`none` models the thrown-and-caught malformed-payload rejection. -/
def decodePayload (rawData : Raw) : Option ParsedPayload :=
  match rawData with
  | .garbage _ => none
  | .obj payload =>
    if !truthyStr payload.tenantId || !truthyDate payload.expiresAt
        || !truthyStr payload.visitorName then
      none
    else
      some payload

/-- `handleGenerate` from src/unnamed/part_003, lines 43-75.  `uuid i` models
the value of the host `crypto.randomUUID()` at its i-th call; `nowMs` models
`Date.now()`.  `quantity` is an `Int` because the JS loop bound may be any
number (the loop body runs `max quantity 0` times); `expirationDate` is the
(possibly empty) date-input string, defaulted through `||` to now + 24h. -/
def handleGenerate (user : User) (residents : List Resident)
    (selectedResidentId : String) (expirationDate : DateStr) (quantity : Int)
    (nowMs : Int) (uuid : Nat → String) : Option (List QRPayload) :=
  if selectedResidentId = "" then none
  else
    match residents.find? (fun r => r.id = selectedResidentId) with
    | none => none
    | some selectedResident =>
      let finalExpiration := if expirationDate.truthy then expirationDate
        else DateStr.stamp (nowMs + 24 * 60 * 60 * 1000)
      some ((List.range quantity.toNat).map (fun i =>
        { id := uuid i
          tenantId := user.tenantId
          residentName := selectedResident.name
          residentUnit := selectedResident.unit
          visitorName := "Invitado"
          createdBy := { name := user.name, role := user.role.str, id := user.id }
          expiresAt := finalExpiration
          generatedAt := nowMs }))

/-- The per-record expiry test of `checkExpiration` (src/App.tsx, lines 58-66):
a record with `!r.expirationDate` (absent or `""`) is kept without being
counted as expired; otherwise it is expired when `new Date(d) <= now`. -/
def residentExpired (now : Int) (r : Resident) : Bool :=
  match r.expirationDate with
  | none => false
  | some d => if !d.truthy then false else dateLeNow d now

/-- `checkExpiration` from src/App.tsx, lines 53-75, acting on the resident
list: it filters out expired records, and rewrites the store only when some
record was expired (`hasChanges`), otherwise returning the existing list
unchanged. -/
def checkExpiration (now : Int) (currentResidents : List Resident) :
    List Resident :=
  let validResidents :=
    currentResidents.filter (fun r => !(residentExpired now r))
  let hasChanges := currentResidents.any (fun r => residentExpired now r)
  if hasChanges then validResidents else currentResidents

/-- The number of records a sweep at `now` removes. -/
def removedCount (now : Int) (rs : List Resident) : Nat :=
  rs.length - (checkExpiration now rs).length

/-- A data-model-conforming grant: `expirationDate` is unset or a parseable
timestamp string — the only shapes the app itself ever stores (an absent key
or a datetime picker value). -/
def ResidentWF (r : Resident) : Bool :=
  match r.expirationDate with
  | none => true
  | some (.stamp _) => true
  | some (.text _) => false

/-- The `scanStatus` values of `QRValidator` (src/unnamed/part_003, line 221). -/
inductive ScanStatus where
  | idle
  | scanning
  | valid
  | invalid
  deriving DecidableEq, Repr

/-- The error message set when camera acquisition fails. -/
def cameraErrorMsg : String := "No se pudo acceder a la cámara. Verifique permisos."

/-- `startScan` from src/unnamed/part_003, lines 237-258, as the sequence of
`(scanStatus, errorMsg)` states it drives the session through starting from
`idle`: it first sets `scanning` (and clears the message) — before attempting
to acquire the camera — and then, when `getUserMedia` fails, sets `invalid`
with the camera error message.  On success no further status is set by
`startScan` itself. -/
def startScanTrace (acquireOk : Bool) : List (ScanStatus × String) :=
  (ScanStatus.scanning, "") ::
    (if acquireOk then [] else [(ScanStatus.invalid, cameraErrorMsg)])

/-! ## Concrete instances used by witnesses and counterexamples -/

/-- A grant with no expiration (mirrors `INITIAL_RESIDENTS[0]` in src/App.tsx). -/
def rEx1 : Resident :=
  { id := "1", tenantId := "t1", name := "Juan Perez", unit := "101"
    type := .Resident, status := .Active }

/-- A grant already expired at time 10. -/
def rEx2 : Resident :=
  { id := "2", tenantId := "t1", name := "Maria Lopez", unit := "202"
    type := .Family, status := .Active, expirationDate := some (.stamp 5) }

/-- A grant of another tenant, expiring after time 10. -/
def rEx3 : Resident :=
  { id := "3", tenantId := "t2", name := "Pedro Gomez", unit := "303"
    type := .Visitor, status := .Active, expirationDate := some (.stamp 100) }

/-- A store holding grants of two tenants, all data-model-conforming. -/
def wfStore : List Resident := [rEx1, rEx2, rEx3]

/-! ## Sweep lemmas -/

/-- The sweep always computes the expiry filter of the store: in the
`hasChanges` branch by definition, and in the no-change branch because the
filter then removes nothing. -/
theorem checkExpiration_filter_eq (now : Int) (rs : List Resident) :
    checkExpiration now rs = rs.filter (fun r => !(residentExpired now r)) := by
  unfold checkExpiration
  by_cases hchg : rs.any (fun s => residentExpired now s) = true
  · simp [hchg]
  · have hfalse : rs.any (fun s => residentExpired now s) = false := by
      simpa using hchg
    have hall : ∀ s ∈ rs, residentExpired now s = false := by
      intro s hs
      by_contra hne
      exact hchg (List.any_eq_true.mpr ⟨s, hs, by simpa using hne⟩)
    simp only [hfalse, Bool.false_eq_true, if_false]
    exact (List.filter_eq_self.mpr (fun a ha => by simpa using hall a ha)).symm

/-- A sweep over a store with no expired record returns the store itself. -/
theorem checkExpiration_noop (now : Int) (rs : List Resident)
    (h : rs.any (fun r => residentExpired now r) = false) :
    checkExpiration now rs = rs := by
  unfold checkExpiration
  simp [h]

/-- After a sweep, no record of the result is expired. -/
theorem checkExpiration_no_expired (now : Int) (rs : List Resident) :
    (checkExpiration now rs).any (fun r => residentExpired now r) = false := by
  rw [checkExpiration_filter_eq]
  rw [List.any_eq_false]
  intro r hr
  have := List.of_mem_filter hr
  simpa using this

/-- C3: after `sweepOnce(now)` on any data-model-conforming store, the store
contains exactly the grants whose `expirationDate` is unset or strictly later
than `now`; in particular a grant with no expiration is never removed, and a
grant with expiration ≤ `now` is always removed. -/
theorem checkExpiration_exact (now : Int) (rs : List Resident)
    (hwf : ∀ r ∈ rs, ResidentWF r = true) (r : Resident) :
    r ∈ checkExpiration now rs ↔
      r ∈ rs ∧ (r.expirationDate = none ∨
        ∃ t, r.expirationDate = some (.stamp t) ∧ now < t) := by
  have key : ∀ s ∈ rs, residentExpired now s = false ↔
      (s.expirationDate = none ∨
        ∃ t, s.expirationDate = some (.stamp t) ∧ now < t) := by
    intro s hs
    have hw := hwf s hs
    cases hds : s.expirationDate with
    | none => simp [residentExpired, hds]
    | some d =>
      cases d with
      | text str => simp [ResidentWF, hds] at hw
      | stamp t => simp [residentExpired, hds, DateStr.truthy, dateLeNow, jsDate]
  unfold checkExpiration
  by_cases hchg : rs.any (fun s => residentExpired now s) = true
  · simp only [hchg, if_true, List.mem_filter, Bool.not_eq_true']
    exact ⟨fun h => ⟨h.1, (key r h.1).mp h.2⟩, fun h => ⟨h.1, (key r h.1).mpr h.2⟩⟩
  · have hfalse : rs.any (fun s => residentExpired now s) = false := by
      simpa using hchg
    have hall : ∀ s ∈ rs, residentExpired now s = false := by
      intro s hs
      by_contra hne
      exact hchg (List.any_eq_true.mpr ⟨s, hs, by simpa using hne⟩)
    simp only [hfalse, Bool.false_eq_true, if_false]
    exact ⟨fun hm => ⟨hm, (key r hm).mp (hall r hm)⟩, fun h => h.1⟩

/-- Witness for C3 at a concrete two-tenant store swept at time 10: the
still-valid grant `rEx3` is retained. -/
theorem checkExpiration_exact_witness : rEx3 ∈ checkExpiration 10 wfStore :=
  (checkExpiration_exact 10 wfStore (by decide) rEx3).mpr
    ⟨by decide, Or.inr ⟨100, rfl, by decide⟩⟩

/-- C7: sweeping twice with no intervening write removes nothing the second
time and leaves the store unchanged; and whenever a sweep rewrites the store
it actually removed some grant (so a sweep that removes nothing is not a
rewrite — the exact existing collection is returned). -/
theorem checkExpiration_idempotent_noop (now : Int) (rs : List Resident) :
    checkExpiration now (checkExpiration now rs) = checkExpiration now rs ∧
    removedCount now (checkExpiration now rs) = 0 ∧
    (checkExpiration now rs = rs ∨
      (checkExpiration now rs).length < rs.length) := by
  have hidem : checkExpiration now (checkExpiration now rs) =
      checkExpiration now rs :=
    checkExpiration_noop now _ (checkExpiration_no_expired now rs)
  refine ⟨hidem, ?_, ?_⟩
  · unfold removedCount
    rw [hidem]
    exact Nat.sub_self _
  · by_cases hchg : rs.any (fun s => residentExpired now s) = true
    · right
      rw [checkExpiration_filter_eq]
      obtain ⟨x, hx, hex⟩ := List.any_eq_true.mp hchg
      exact List.length_filter_lt_length_iff_exists.mpr ⟨x, hx, by simpa using hex⟩
    · left
      exact checkExpiration_noop now rs (by simpa using hchg)

/-- C10: the sweep is a pure filter on the store — it equals `List.filter`
with the expiry predicate, its result is a sublist of the input (every
retained grant is one of the input's records, unchanged, in the original
relative order), and the predicate reads only `expirationDate`, so it applies
uniformly to the records of every tenant in the shared store. -/
theorem checkExpiration_pure_filter (now : Int) (rs : List Resident) :
    checkExpiration now rs = rs.filter (fun r => !(residentExpired now r)) ∧
    (checkExpiration now rs).Sublist rs ∧
    (∀ r s : Resident, r.expirationDate = s.expirationDate →
      residentExpired now r = residentExpired now s) := by
  refine ⟨checkExpiration_filter_eq now rs, ?_, ?_⟩
  · rw [checkExpiration_filter_eq]
    exact List.filter_sublist rs
  · intro r s h
    unfold residentExpired
    rw [h]

/-! ## Validator lemmas -/

/-- A valid credential of tenant `t1`, expiring at time 1000. -/
def cred1 : QRPayload :=
  { id := "c1", tenantId := "t1", residentName := "Juan Perez"
    residentUnit := "101", visitorName := "Invitado"
    createdBy := { name := "Carlos Admin", role := "X", id := "u1" }
    expiresAt := .stamp 1000, generatedAt := 0 }

/-- C1: a valid credential whose tenant differs from the validator's tenant is
rejected with `TenantMismatch(c.tenantId)` for every value of `now` and every
expiry — the tenant check decides before the expiry check is reached. -/
theorem validateQR_tenant_isolation (c : QRPayload) (T : String) (now : Int)
    (hv : c.valid = true) (hne : c.tenantId ≠ T) :
    validateQR (encode c) T now = .rejectedTenantMismatch c.tenantId := by
  simp only [QRPayload.valid, Bool.and_eq_true, bne_iff_ne, ne_eq] at hv
  obtain ⟨⟨h1, h2⟩, h3⟩ := hv
  simp [validateQR, encode, toParsed, truthyStr, truthyDate, h1, h2, h3, hne]

/-- Witness for C1: `cred1` (tenant `t1`) scanned at a `t2` checkpoint is
rejected as a tenant mismatch even though it is not expired at time 0. -/
theorem validateQR_tenant_isolation_witness :
    validateQR (encode cred1) "t2" 0 = .rejectedTenantMismatch cred1.tenantId :=
  validateQR_tenant_isolation cred1 "t2" 0 (by decide) (by decide)

/-- Counterexample for C2 as stated: at `now == expiresAt` (both 1000) the
credential is accepted, not rejected as expired — the source compares with
`new Date(expiresAt) < now`, so equality passes. -/
theorem validateQR_expiry_equality_counterexample :
    validateQR (encode cred1) "t1" 1000 = .accepted (toParsed cred1) ∧
    validateQR (encode cred1) "t1" 1000 ≠ .rejectedExpired cred1.expiresAt := by
  decide

/-- C2 (amended): with matching tenant and a parseable expiry `t`, the
validator accepts exactly when `now ≤ t` and rejects as expired exactly when
`t < now`; at `now == t` the credential is accepted. -/
theorem validateQR_expiry_boundary (c : QRPayload) (now t : Int)
    (hv : c.valid = true) (hstamp : c.expiresAt = .stamp t) :
    (validateQR (encode c) c.tenantId now = .accepted (toParsed c) ↔ now ≤ t) ∧
    (validateQR (encode c) c.tenantId now = .rejectedExpired c.expiresAt ↔
      t < now) := by
  simp only [QRPayload.valid, Bool.and_eq_true, bne_iff_ne, ne_eq] at hv
  obtain ⟨⟨h1, h2⟩, h3⟩ := hv
  by_cases hlt : t < now
  · constructor
    · simp [validateQR, encode, toParsed, truthyStr, truthyDate, h1, h3, hstamp,
        DateStr.truthy, dateLtNow, jsDate, hlt]
    · simp [validateQR, encode, toParsed, truthyStr, truthyDate, h1, h3, hstamp,
        DateStr.truthy, dateLtNow, jsDate, hlt]
  · constructor
    · simp [validateQR, encode, toParsed, truthyStr, truthyDate, h1, h3, hstamp,
        DateStr.truthy, dateLtNow, jsDate, hlt]
      omega
    · simp [validateQR, encode, toParsed, truthyStr, truthyDate, h1, h3, hstamp,
        DateStr.truthy, dateLtNow, jsDate, hlt]

/-- Witness for C2 (amended) at `cred1` and `now = 500 < 1000`. -/
theorem validateQR_expiry_boundary_witness :
    validateQR (encode cred1) cred1.tenantId 500 = .accepted (toParsed cred1) ↔
      (500 : Int) ≤ 1000 :=
  (validateQR_expiry_boundary cred1 500 1000 (by decide) rfl).1

/-- C4: encoding a valid credential and decoding the transport yields the very
same credential (the parsed object determines the credential uniquely). -/
theorem decode_encode_roundtrip (c : QRPayload) (hv : c.valid = true) :
    decodePayload (encode c) = some (toParsed c) ∧
    (∀ c' : QRPayload, toParsed c' = toParsed c → c' = c) := by
  simp only [QRPayload.valid, Bool.and_eq_true, bne_iff_ne, ne_eq] at hv
  obtain ⟨⟨h1, h2⟩, h3⟩ := hv
  constructor
  · simp [decodePayload, encode, toParsed, truthyStr, truthyDate, h1, h2, h3]
  · intro c' h
    obtain ⟨i, ti, rn, ru, vn, cb, ea, ga⟩ := c
    obtain ⟨i', ti', rn', ru', vn', cb', ea', ga'⟩ := c'
    obtain ⟨cn, cr, ci⟩ := cb
    obtain ⟨cn', cr', ci'⟩ := cb'
    simp_all [toParsed]

/-- Witness for C4 at the concrete credential `cred1`. -/
theorem decode_encode_roundtrip_witness :
    decodePayload (encode cred1) = some (toParsed cred1) :=
  (decode_encode_roundtrip cred1 (by decide)).1

/-- A parsed payload whose `expiresAt` key holds a truthy string the host date
parser rejects (`Invalid Date`). -/
def badPayload : ParsedPayload :=
  { tenantId := some "t1", expiresAt := some (.text "not-a-date")
    visitorName := some "Invitado" }

/-- Counterexample for C5 as stated: a payload whose `expiresAt` is present
but not parseable as a timestamp is not rejected as malformed — it decodes,
and with a matching tenant it even validates as accepted (the `NaN` expiry
comparison is false, so it never registers as expired). -/
theorem decodePayload_unparseable_counterexample :
    decodePayload (Raw.obj badPayload) = some badPayload ∧
    validateQR (Raw.obj badPayload) "t1" 999999999 = .accepted badPayload := by
  decide

/-- C5 (amended): decoding is total — it returns a payload or the typed
malformed rejection, never an uncaught fault; a non-JSON string is rejected,
and a parsed object is rejected exactly when `tenantId`, `expiresAt` or
`visitorName` is missing or empty.  Parseability of `expiresAt` is not
checked. -/
theorem decodePayload_typed_total (s : String) (p : ParsedPayload) (raw : Raw) :
    decodePayload (Raw.garbage s) = none ∧
    (decodePayload (Raw.obj p) = none ↔
      (truthyStr p.tenantId && truthyDate p.expiresAt
        && truthyStr p.visitorName) = false) ∧
    (decodePayload raw = none ∨ ∃ q, decodePayload raw = some q) := by
  refine ⟨rfl, ?_, ?_⟩
  · cases ha : truthyStr p.tenantId <;> cases hb : truthyDate p.expiresAt <;>
      cases hc : truthyStr p.visitorName <;> simp [decodePayload, ha, hb, hc]
  · cases h : decodePayload raw with
    | none => exact Or.inl rfl
    | some q => exact Or.inr ⟨q, rfl⟩

/-! ## Issuance lemmas -/

/-- The issuing admin used by witnesses (mirrors `MOCK_USERS[0]`). -/
def user0 : User :=
  { id := "u1", name := "Carlos Admin", email := "carlos@alerces.com"
    role := .X, tenantId := "t1", avatar := "a" }

/-- A concrete model of the `crypto.randomUUID()` stream: the host guarantees
a fresh identifier on every call, modelled by an injective function. -/
def uuid0 : Nat → String := fun n => String.mk (List.replicate n 'a')

/-- `uuid0` is injective (distinct calls return distinct identifiers). -/
theorem uuid0_injective : Function.Injective uuid0 := by
  intro a b h
  have hlen := congrArg String.length h
  simpa [uuid0, String.length] using hlen

/-- C6: for any batch size `N ≥ 1`, issuance yields exactly `N` credentials
with pairwise-distinct `credentialId`s, all sharing the host grant's tenant,
name and unit and one common `expiresAt`; when no expiry is supplied the
common `expiresAt` is issuance time plus 24 hours. -/
theorem handleGenerate_batch (user : User) (residents : List Resident)
    (sid : String) (exp : DateStr) (N : Nat) (nowMs : Int) (uuid : Nat → String)
    (host : Resident) (hinj : Function.Injective uuid) (hsid : sid ≠ "")
    (hfind : residents.find? (fun r => r.id = sid) = some host) (hN : 1 ≤ N)
    (htenant : host.tenantId = user.tenantId) :
    ∃ out, handleGenerate user residents sid exp (N : Int) nowMs uuid = some out ∧
      out.length = N ∧
      (out.map QRPayload.id).Nodup ∧
      (∀ p ∈ out, p.tenantId = host.tenantId ∧ p.residentName = host.name ∧
        p.residentUnit = host.unit ∧
        p.expiresAt = (if exp.truthy then exp
          else DateStr.stamp (nowMs + 24 * 60 * 60 * 1000))) ∧
      (exp.truthy = false → ∀ p ∈ out,
        p.expiresAt = DateStr.stamp (nowMs + 24 * 60 * 60 * 1000)) := by
  unfold handleGenerate
  rw [if_neg hsid, hfind]
  refine ⟨_, rfl, ?_, ?_, ?_, ?_⟩
  · simp
  · simp only [List.map_map]
    exact List.Nodup.map (fun a b hab => hinj hab) (List.nodup_range _)
  · intro p hp
    simp only [List.mem_map, List.mem_range] at hp
    obtain ⟨i, hi, rfl⟩ := hp
    exact ⟨htenant.symm, rfl, rfl, rfl⟩
  · intro hexp p hp
    simp only [List.mem_map, List.mem_range] at hp
    obtain ⟨i, hi, rfl⟩ := hp
    simp [hexp]

/-- Witness for C6: a batch of 5 from `user0` for host `rEx1` yields 5
credentials. -/
theorem handleGenerate_batch_witness :
    (handleGenerate user0 [rEx1] "1" (DateStr.text "") ((5 : Nat) : Int) 0
      uuid0).map List.length = some 5 := by
  obtain ⟨out, heq, hlen, -, -, -⟩ :=
    handleGenerate_batch user0 [rEx1] "1" (DateStr.text "") 5 0 uuid0 rEx1
      uuid0_injective (by decide) (by decide) (by decide) (by decide)
  rw [heq, Option.map_some', hlen]

/-- Counterexample for C8 as stated: a requested count of 21 — above the
claimed policy maximum of 20 — does not fail; it produces 21 credentials. -/
theorem handleGenerate_out_of_bounds_counterexample :
    (handleGenerate user0 [rEx1] "1" (DateStr.text "") (21 : Int) 0 uuid0).map
      List.length = some 21 := by
  decide

/-- C8 (amended): no quantity bound is enforced and no `InvalidQuantity`
failure exists in the code — for every requested count `q` (the 1–20 bounds
appear only as advisory attributes on the number input), issuance succeeds
and produces `q.toNat` credentials (the JS loop runs zero times for a
non-positive count). -/
theorem handleGenerate_no_quantity_bound (user : User) (residents : List Resident)
    (sid : String) (exp : DateStr) (q : Int) (nowMs : Int) (uuid : Nat → String)
    (host : Resident) (hsid : sid ≠ "")
    (hfind : residents.find? (fun r => r.id = sid) = some host) :
    ∃ out, handleGenerate user residents sid exp q nowMs uuid = some out ∧
      out.length = q.toNat := by
  unfold handleGenerate
  rw [if_neg hsid, hfind]
  exact ⟨_, rfl, by simp⟩

/-- Witness for C8 (amended) at the count −3: issuance succeeds with zero
credentials. -/
theorem handleGenerate_no_quantity_bound_witness :
    (handleGenerate user0 [rEx1] "1" (DateStr.text "") (-3 : Int) 0 uuid0).map
      List.length = some 0 := by
  obtain ⟨out, heq, hlen⟩ :=
    handleGenerate_no_quantity_bound user0 [rEx1] "1" (DateStr.text "") (-3) 0
      uuid0 rEx1 (by decide) (by decide)
  rw [heq, Option.map_some', hlen]
  decide

/-! ## Scan-session lemmas -/

/-- Counterexample for C9 as stated: on camera-acquisition failure the session
does pass through the `scanning` state — `startScan` sets `scanning` before
attempting acquisition — and only then reaches the rejected state. -/
theorem startScan_enters_scanning_counterexample :
    (ScanStatus.scanning, "") ∈ startScanTrace false ∧
    (startScanTrace false).getLast? =
      some (ScanStatus.invalid, cameraErrorMsg) := by
  decide

/-- C9 (amended): when camera acquisition fails from `Idle`, the session first
enters `Scanning` (the status is set before acquisition is attempted) and then
transitions to the rejected state carrying the acquisition-failure message; it
ends rejected, never accepted. -/
theorem startScan_failure_trace :
    startScanTrace false =
      [(ScanStatus.scanning, ""), (ScanStatus.invalid, cameraErrorMsg)] ∧
    (startScanTrace false).getLast? =
      some (ScanStatus.invalid, cameraErrorMsg) ∧
    (∀ m : String, (ScanStatus.valid, m) ∉ startScanTrace false) := by
  refine ⟨rfl, rfl, ?_⟩
  intro m hm
  simp [startScanTrace] at hm

end MiVilla
